/-
Verification of the terraform-skill step pipeline.

This file shallowly embeds the terraform-specific step definitions of the
repository (lib/terraform.ts, here src/unnamed/part_001), the parameter
parsing helpers (src/lib/utils.ts) and the repository-identity listener
(src/lib/events/onPush.ts) as executable Lean definitions, and proves the
frozen claims about them.

Modelling conventions:
  * TypeScript optional fields become `Option`; JavaScript truthiness of a
    string / boolean is made explicit (`jsTruthyStr`, `jsTruthyBool`); a
    JavaScript template interpolation of `undefined` renders the string
    "undefined" (`jsStr`).
  * The subprocess (`project.spawn`) is an oracle `Invocation → SpawnResult`
    passed to each step; the list of invocations a step performs is returned
    alongside its status so that "the subprocess is never invoked" is a
    statement about that list.  Working directory and environment of an
    invocation are display/OS details not relevant to any claim and are not
    modelled.
  * A `TypeError` raised by accessing a property of `undefined` is modelled
    as `Except.error`; a function that can fall off the end without assigning
    its result (TypeScript `undefined`) returns `Option`.
  * Wall-clock timestamps and footer/author display fields of chat messages
    are omitted; the attachment text, actions and the upsert message id are
    modelled.
-/
import Mathlib

namespace TerraformSkill

/-! ## JavaScript-semantics helpers -/

/-- Rendering of an optional string inside a JS template literal:
`undefined` prints as "undefined". -/
def jsStr : Option String → String
  | none => "undefined"
  | some s => s

/-- JS truthiness of an optional string: `undefined` and `""` are falsy. -/
def jsTruthyStr : Option String → Bool
  | none => false
  | some s => s ≠ ""

/-- JS truthiness of an optional boolean: `undefined` and `false` are falsy. -/
def jsTruthyBool : Option Bool → Bool
  | none => false
  | some b => b

/-- Splitting a character list on a separator character, keeping empty
segments. -/
def splitCharAux (sep : Char) : List Char → List Char → List (List Char)
  | [], acc => [acc.reverse]
  | c :: rest, acc =>
    if c = sep then acc.reverse :: splitCharAux sep rest []
    else splitCharAux sep rest (c :: acc)

/-- JS `s.split(sep)` for a one-character separator: empty segments are
kept and the empty string splits to `[""]`. -/
def jsSplit (sep : Char) (s : String) : List String :=
  (splitCharAux sep s.data []).map (fun l => String.mk l)

/-- JS object assignment `obj[k] = v` on an assoc list: overwrite in place
when the key exists (keeping insertion order), else append. -/
def insertAssoc (l : List (String × String)) (k v : String) : List (String × String) :=
  if l.any (fun kv => kv.1 == k) then
    l.map (fun kv => if kv.1 == k then (k, v) else kv)
  else
    l ++ [(k, v)]

/-! ## Data model (lib/terraform.ts) -/

/-- Result of one `project.spawn` subprocess call (§6 of the spec:
`{status, stdout, stderr}`); `log` is the text captured by the
`StringCapturingProgressLog` when one is attached to the call. -/
structure SpawnResult where
  status : Int
  stdout : String
  stderr : String
  log : String
deriving DecidableEq, Repr

/-- One subprocess invocation: the command and its argument vector. -/
structure Invocation where
  cmd : String
  args : List String
deriving DecidableEq, Repr

/-- Entry of `TerraformRegistration.args`: `{ arg: string; value?: string }`. -/
structure TfArg where
  arg : String
  value : Option String := none
deriving DecidableEq, Repr

/-- Entry of `TerraformRegistration.vars`: `{ tfVar: string; value?: string }`. -/
structure TfVar where
  tfVar : String
  value : Option String := none
deriving DecidableEq, Repr

/-- Repository identity carried by the loaded project
(`project.id`: owner, repo, sha, branch, credential). -/
structure RepoId where
  owner : String
  repo : String
  sha : String
  branch : Option String := none
  credential : Option String := none
deriving DecidableEq, Repr

/-- The loaded project handle: repository identity and the root directory of
the clone (`project.path()`).  The function-valued members `spawn`/`exec`
are represented outside the data model, as the spawn oracle each step
receives. -/
structure Project where
  id : RepoId
  dir : String
deriving DecidableEq, Repr

/-- The shared parameter bag (`TerraformRegistration`).  All fields are
optional at runtime: the bag starts empty and is populated by the
parameter-initialization step.  `commitUrl` is the ad-hoc extra field
written by the listener function `updateRepo`. -/
structure TerraformRegistration where
  project : Option Project := none
  baseLocation : Option String := none
  envVars : Option (List (String × String)) := none
  args : Option (List TfArg) := none
  vars : Option (List TfVar) := none
  varsFiles : Option (List String) := none
  init : Option Bool := none
  workspace : Option String := none
  autoApprove : Option Bool := none
  version : Option String := none
  commitUrl : Option String := none
deriving DecidableEq, Repr

/-- A step result (`HandlerStatus`): integer code plus optional reason. -/
structure HandlerStatus where
  code : Int
  reason : Option String := none
deriving DecidableEq, Repr

/-- Models `TerraformResult` of `executeTfAction`: subprocess status plus the
captured output transcript (`log.log`). -/
structure TerraformResult where
  code : Int
  message : String
deriving DecidableEq, Repr

/-- The three terraform actions `executeTfAction` accepts. -/
inductive TfAction where
  | apply
  | plan
  | destroy
deriving DecidableEq, Repr

def actionStr : TfAction → String
  | .apply => "apply"
  | .plan => "plan"
  | .destroy => "destroy"

/-! ## Argument/Variable builder (lib/terraform.ts, buildTfVars / buildTfArgs) -/

/-- Models `buildTfVars(registration)`: `-var name=value` pairs (flattened) for each
var, then `-var-file=<file>` for each vars file.  The JS guards
`if (registration.vars)` / `if (registration.varsFiles)` test for the field
being present (an array, even empty, is truthy). -/
def buildTfVars (registration : TerraformRegistration) : List String :=
  let args : List String := []
  let args := args ++ (match registration.vars with
    | some vs => (vs.map (fun a => ["-var", a.tfVar ++ "=" ++ jsStr a.value])).flatten
    | none => [])
  let args := args ++ (match registration.varsFiles with
    | some fs => fs.map (fun f => "-var-file=" ++ f)
    | none => [])
  args

/-- Models `buildTfArgs(action, registration)`: action-specific prefix
(`apply` → `-auto-approve`, `destroy` → `-force`), then `-input=false`,
then each registration arg rendered `-${a.arg}${a.value ? "=" + a.value : ""}`
(a JS-truthy test: an absent or empty value renders no `=` suffix). -/
def buildTfArgs (action : TfAction) (registration : TerraformRegistration) : List String :=
  let args : List String := []
  let args := args ++ (match action with
    | .apply => ["-auto-approve"]
    | .destroy => ["-force"]
    | .plan => [])
  let args := args ++ ["-input=false"]
  let args := args ++ (match registration.args with
    | some as => as.map (fun a =>
        "-" ++ a.arg ++ (if jsTruthyStr a.value then "=" ++ jsStr a.value else ""))
    | none => [])
  args

/-- Spec-side rendering of a single CLI argument, for comparison with
`buildTfArgs`. -/
def renderTfArg (a : TfArg) : String :=
  if jsTruthyStr a.value then "-" ++ a.arg ++ "=" ++ jsStr a.value else "-" ++ a.arg

/-- Spec-side action prefix, for comparison with `buildTfArgs`. -/
def tfActionPrefix : TfAction → List String
  | .apply => ["-auto-approve"]
  | .destroy => ["-force"]
  | .plan => []

/-! ## executeTfAction -/

/-- The argument vector `[action, ...buildTfArgs, ...buildTfVars]` passed to
`terraform` by `executeTfAction`. -/
def tfInvocation (action : TfAction) (registration : TerraformRegistration) : Invocation :=
  { cmd := "terraform", args := actionStr action :: (buildTfArgs action registration ++ buildTfVars registration) }

/-- Models `executeTfAction(action, registration)`: builds args and vars, spawns
`terraform` with a capturing log, and returns `{code: result.status,
message: log.log}`.  Accessing `registration.project.spawn` with no project
loaded raises a `TypeError`. -/
def executeTfAction (spawn : Invocation → SpawnResult) (action : TfAction)
    (registration : TerraformRegistration) : Except String (TerraformResult × List Invocation) :=
  match registration.project with
  | none => Except.error "TypeError: cannot read property spawn of undefined"
  | some _ =>
    let inv := tfInvocation action registration
    let result := spawn inv
    Except.ok ({ code := result.status, message := result.log }, [inv])

/-! ## Step predicates (lib/terraform.ts) -/

/-- Context surface the step predicates consult: `(context as any).tfApply`
is set to `true` by the command handler (`runApply.ts`) before it runs the
apply pipeline. -/
structure StepContext where
  tfApply : Bool := false
deriving DecidableEq, Repr

/-- Models `shouldRunTfInit`: run init unless the user disabled it (`!reg.init`). -/
def shouldRunTfInit (reg : TerraformRegistration) : Bool :=
  !jsTruthyBool reg.init

/-- Models `shouldRunSelectTfWorkspace`: `!!reg.workspace`. -/
def shouldRunSelectTfWorkspace (reg : TerraformRegistration) : Bool :=
  jsTruthyStr reg.workspace

/-- Models `shouldRunTerraformApply`: `!!reg.autoApprove || context.tfApply === true`. -/
def shouldRunTerraformApply (ctx : StepContext) (reg : TerraformRegistration) : Bool :=
  jsTruthyBool reg.autoApprove || ctx.tfApply

/-- Models `shouldRunTfVersion`: `!!reg.version`. -/
def shouldRunTfVersion (reg : TerraformRegistration) : Bool :=
  jsTruthyStr reg.version

/-! ## setTfVersion (lib/terraform.ts) -/

/-- Models `setTfVersion(registration)`: spawn `tfenv use <version>`; only when that
fails, spawn `tfenv install <version>` and classify its outcome.  The local
`response` is assigned only on the use-failure paths, so when `use` succeeds
the function returns JS `undefined` — modelled as `none`. -/
def setTfVersion (spawn : Invocation → SpawnResult)
    (registration : TerraformRegistration) :
    Except String (Option HandlerStatus × List Invocation) :=
  match registration.project with
  | none => Except.error "TypeError: cannot read property spawn of undefined"
  | some _ =>
    let useInv : Invocation := { cmd := "tfenv", args := ["use", jsStr registration.version] }
    let result := spawn useInv
    if result.status ≠ 0 then
      let installInv : Invocation := { cmd := "tfenv", args := ["install", jsStr registration.version] }
      let install := spawn installInv
      if install.status ≠ 0 then
        Except.ok (some { code := 1, reason := some install.stderr }, [useInv, installInv])
      else
        Except.ok (some { code := 0, reason := some install.stdout }, [useInv, installInv])
    else
      Except.ok (none, [useInv])

/-! ## runTfValidate and the ValidateTerraform step (lib/terraform.ts) -/

/-- The argument vector of the `terraform validate` invocation. -/
def validateInvocation : Invocation := { cmd := "terraform", args := ["validate"] }

/-- Models `runTfValidate(registration)`: spawn `terraform validate`; status 0 maps
to code 0, anything else to code 1 with a fixed reason. -/
def runTfValidate (spawn : Invocation → SpawnResult)
    (registration : TerraformRegistration) :
    Except String (HandlerStatus × List Invocation) :=
  match registration.project with
  | none => Except.error "TypeError: cannot read property spawn of undefined"
  | some _ =>
    let result := spawn validateInvocation
    if result.status = 0 then
      Except.ok ({ code := 0 }, [validateInvocation])
    else
      Except.ok ({ code := 1, reason := some "Failed to run terraform validate!" }, [validateInvocation])

/-- First index at which `needle` occurs as a contiguous sublist of the
second argument. -/
def subPos (needle : List Char) : List Char → Option Nat
  | [] => if needle.isPrefixOf ([] : List Char) then some 0 else none
  | c :: t =>
    if needle.isPrefixOf (c :: t) then some 0
    else (subPos needle t).map (fun i => i + 1)

/-- Consume a list of literal tokens in order, each anywhere after the
previous one; return the text remaining after the last token. -/
def dropTokens : List Char → List (List Char) → Option (List Char)
  | hay, [] => some hay
  | hay, t :: ts =>
    match subPos t hay with
    | none => none
    | some i => dropTokens (hay.drop (i + t.length)) ts

/-- Models `terraformBackendGrammar`, the microgrammar
`"terraform { backend ${name}"` with `$skipGaps`: the literal tokens
`terraform`, `{`, `backend` must occur in this order with arbitrary gaps,
followed by a name token (some non-whitespace text). -/
def backendGrammarMatch (content : String) : Bool :=
  match dropTokens content.data ["terraform".data, "\x7b".data, "backend".data] with
  | none => false
  | some rest => rest.any (fun c => !c.isWhitespace)

/-- The backend scan of the ValidateTerraform step: among the directory
entries of the base path (`(name, contents)` pairs), consider the `*.tf`
files (`/^.*\.tf$/`) and test whether any matches the backend grammar
(the source loop breaks at the first match; `List.any` is its value). -/
def backendFound (files : List (String × String)) : Bool :=
  (files.filter (fun f => f.1.endsWith ".tf")).any (fun f => backendGrammarMatch f.2)

/-- The reason text of the missing-backend failure. -/
def noBackendReason : String :=
  "No backend configured! State will be lost!  Please configure a backend and try again!"

/-- The `ValidateTerraform` step: run `terraform validate` (code 2 with the
validate reason when it fails), then scan the `*.tf` files of the base path for a
backend block (code 3 when none found), else code 0.  `files` stands for the
directory listing of `<project root>/<baseLocation>` with file contents. -/
def validateTerraformStep (spawn : Invocation → SpawnResult)
    (files : List (String × String)) (params : TerraformRegistration) :
    Except String (HandlerStatus × List Invocation) :=
  match runTfValidate spawn params with
  | Except.error e => Except.error e
  | Except.ok (tfValidateResult, invs) =>
    if tfValidateResult.code ≠ 0 then
      Except.ok ({ code := 2, reason := tfValidateResult.reason }, invs)
    else if !backendFound files then
      Except.ok ({ code := 3, reason := some noBackendReason }, invs)
    else
      Except.ok ({ code := 0 }, invs)

/-! ## Chat message model (RunTerraformPlan, lib/terraform.ts) -/

/-- Payload of the "Run Apply" button: the JSON-serialized pipeline state —
the project minus its live handles, the upsert message id and the commit
url.  Serialization is modelled as the record itself. -/
structure RunApplyPayload where
  project : Project
  msgId : String
  commitUrl : String
deriving DecidableEq, Repr

/-- Models `_.omit(params.project, ["spawn", "exec", "id.credential"])`: the
function-valued members live outside this data model (the spawn oracle), so
the omission strips the remaining live handle, the credential. -/
def omitLiveHandles (p : Project) : Project :=
  { p with id := { p.id with credential := none } }

/-- A chat-message button (`buttonForCommand`): display text, the command it
triggers and its parameter payload. -/
structure SlackAction where
  text : String
  command : String
  payload : RunApplyPayload
deriving DecidableEq, Repr

/-- A message attachment; author/footer/timestamp display fields are
omitted. -/
structure Attachment where
  text : String
  fallback : String
  color : String
  actions : List SlackAction := []
deriving DecidableEq, Repr

structure SlackMessage where
  attachments : List Attachment
deriving DecidableEq, Repr

/-- One `ctx.message.send(msg, destinations, {id})` call: upsert semantics
keyed by `msgId`. -/
structure SentMessage where
  msg : SlackMessage
  users : List String
  channels : List String
  msgId : String
deriving DecidableEq, Repr

/-- The event-context data the plan step reads: correlation/workspace ids,
the commit sha and url of the push, the chat channels linked to the repo, and the
chat screen name of the committer (the graphql lookup result of
`findCommitterScreenName`). -/
structure PlanCtx where
  correlationId : String
  workspaceId : String
  pushAfterSha : String
  pushAfterUrl : String
  channels : List String
  committerScreenName : String
deriving DecidableEq, Repr

/-- Models `codeBlock` from @atomist/slack-messages. -/
def codeBlock (text : String) : String := "```" ++ text ++ "```"

/-- Models `url(target, label)` from @atomist/slack-messages. -/
def slackUrl (target label : String) : String := "<" ++ target ++ "|" ++ label ++ ">"

/-- The plan transcript portion of the message text. -/
def planMsgText (transcript : String) : String := "*Plan Output* " ++ codeBlock transcript

/-- The "Run Apply" button the plan step attaches when changes are present. -/
def runApplyButton (p : Project) (msgId commitUrl : String) : SlackAction :=
  { text := "Run Apply", command := "runApply",
    payload := { project := omitLiveHandles p, msgId := msgId, commitUrl := commitUrl } }

/-- The main plan attachment: repo/commit header followed by the plan
transcript, with the action buttons. -/
def planHeadAttachment (p : Project) (ctx : PlanCtx) (msgText : String)
    (actions : List SlackAction) : Attachment :=
  { text := "*" ++ p.id.owner ++ "/" ++ p.id.repo ++ "* at "
      ++ slackUrl ctx.pushAfterUrl ("`" ++ p.id.sha.take 7 ++ "`") ++ "\n\n" ++ msgText,
    fallback := "Terraform Plan Execution",
    color := "#5f43e9",
    actions := actions }

/-- The extra attachment appended when the plan found no changes. -/
def noChangesAttachment : Attachment :=
  { text := "*No infrastructure changes found.  No action required.*",
    fallback := "No infrastructure changes found.",
    color := "#4040b2" }

/-- Destination selection of the message send of the plan step: linked channels when any
exist, else the chat identity of the committer. -/
def mkSentMessage (msg : SlackMessage) (ctx : PlanCtx) (msgId : String) : SentMessage :=
  if ctx.channels.length > 0 then
    { msg := msg, users := [], channels := ctx.channels, msgId := msgId }
  else
    { msg := msg, users := [ctx.committerScreenName], channels := [], msgId := msgId }

/-! ## RunTerraformPlan step -/

/-- The extra CLI arg the plan step pushes onto its deep copy of the
registration. -/
def detailedExitArg : TfArg := { arg := "detailed-exitcode" }

/-- The `terraform plan` invocation performed by the plan step for a
registration whose args are `as`: the action args are built from the deep
copy carrying the appended `detailed-exitcode`. -/
def planInvocation (r : TerraformRegistration) (as : List TfArg) : Invocation :=
  tfInvocation TfAction.plan { r with args := some (as ++ [detailedExitArg]) }

/-- Everything observable about one run of the plan step: the returned step
status, the subprocess invocations, the chat messages sent, and the shared
registration as the step leaves it. -/
structure PlanOutcome where
  status : HandlerStatus
  invocations : List Invocation
  sent : List SentMessage
  regAfter : TerraformRegistration
deriving DecidableEq, Repr

/-- The `RunTerraformPlan` step.  It deep-copies the registration
(`_.cloneDeep`), pushes `detailed-exitcode` onto the args of the copy (a
`TypeError` when args were never set), executes `terraform plan`, maps
detailed exit code 1 to a hard failure, otherwise builds the plan message —
with the "Run Apply" button exactly when the exit code is 2 — and sends it
(upserted under `apply-<correlationId>`) only when auto-approve is not
enabled.  Because the push went to the deep copy, the shared registration is
returned unchanged (`regAfter := params`). -/
def runTerraformPlanStep (spawn : Invocation → SpawnResult) (ctx : PlanCtx)
    (params : TerraformRegistration) : Except String PlanOutcome :=
  match params.args with
  | none => Except.error "TypeError: cannot read property push of undefined"
  | some as =>
    let newArgs := { params with args := some (as ++ [detailedExitArg]) }
    match executeTfAction spawn TfAction.plan newArgs with
    | Except.error e => Except.error e
    | Except.ok (result, invs) =>
      if result.code = 1 then
        Except.ok { status := { code := result.code,
                                reason := some ("Error while running Terraform!  Exit code: " ++ toString result.code) },
                    invocations := invs, sent := [], regAfter := params }
      else
        match params.project with
        | none => Except.error "TypeError: cannot read property id of undefined"
        | some p =>
          let msgId := "apply-" ++ ctx.correlationId
          let msgText := planMsgText result.message
          let actions : List SlackAction :=
            if result.code = 2 then [runApplyButton p msgId ctx.pushAfterUrl] else []
          let attachments :=
            if result.code = 2 then [planHeadAttachment p ctx msgText actions]
            else [planHeadAttachment p ctx msgText actions, noChangesAttachment]
          let msg : SlackMessage := { attachments := attachments }
          let sent : List SentMessage :=
            if jsTruthyBool params.autoApprove then [] else [mkSentMessage msg ctx msgId]
          Except.ok { status := { code := 0, reason := some msgText },
                      invocations := invs, sent := sent, regAfter := params }

/-! ## RunTerraformApply step -/

/-- Action of the `RunTerraformApply` step: `executeTfAction("apply", params)`,
returning the subprocess exit code with the captured output as the reason. -/
def runTerraformApplyStep (spawn : Invocation → SpawnResult)
    (params : TerraformRegistration) : Except String (HandlerStatus × List Invocation) :=
  match executeTfAction spawn TfAction.apply params with
  | Except.error e => Except.error e
  | Except.ok (result, invs) =>
    Except.ok ({ code := result.code,
                 reason := some ("*Apply Output:*\n\n" ++ codeBlock result.message) }, invs)

/-- Modelled from the spec: the step-pipeline engine (`runSteps`, an external
collaborator whose code is not under src/) evaluates the run-predicate of a step
before invoking it; when the predicate is false the step is skipped — its
action is not invoked, so no subprocess call happens (spec §4.3).  Applied
here to `RunTerraformApply`, whose predicate is `shouldRunTerraformApply`.
`none` in the first component means the step was skipped. -/
def runApplyStepGated (spawn : Invocation → SpawnResult) (sctx : StepContext)
    (params : TerraformRegistration) :
    Except String (Option HandlerStatus × List Invocation) :=
  if shouldRunTerraformApply sctx params then
    match runTerraformApplyStep spawn params with
    | Except.error e => Except.error e
    | Except.ok (st, invs) => Except.ok (some st, invs)
  else
    Except.ok (none, [])

/-! ## Parameter setting (src/lib/utils.ts) -/

/-- The configuration keys `setParams` reads from
`ctx.configuration.parameters`.  Note that the code reads both `varFiles`
and `varsFiles`, two distinct keys (the skill schema registers a third
spelling, `varfiles`, which the code never reads). -/
structure SkillParameters where
  workspace : Option String := none
  cmdlineargs : Option (List String) := none
  base : Option String := none
  init : Option Bool := none
  cmdlinevars : Option (List String) := none
  varFiles : Option (List String) := none
  varsFiles : Option (List String) := none
  envvars : Option (List String) := none
  autoApprove : Option Bool := none
  version : Option String := none
deriving DecidableEq, Repr

/-- Loop body of `convertEnvArray`: the `forEach` over the strings with the
mutated result object threaded as an accumulator; a throw inside the loop
propagates immediately. -/
def convertEnvArrayAux (result : List (String × String)) :
    List String → Except String (List (String × String))
  | [] => Except.ok result
  | a :: rest =>
    match jsSplit '=' a with
    | [k, v] => convertEnvArrayAux (insertAssoc result k v) rest
    | _ => Except.error "Could not process argument!"

/-- Models `convertEnvArray`: fold `key=value` strings into an object, throwing
when a string does not split into exactly two parts on `=`. -/
def convertEnvArray (data : List String) : Except String (List (String × String)) :=
  convertEnvArrayAux [] data

/-- Models `convertTfVarArray`: split one `name=value` string, throwing unless it
splits into exactly two parts on `=`. -/
def convertTfVarArray (data : String) : Except String TfVar :=
  match jsSplit '=' data with
  | [a, b] => Except.ok { tfVar := a, value := some b }
  | _ => Except.error
      ("Could not process supplied Terraform var: " ++ data ++ ".  Is it delimited with \"=\"?")

/-- Models `convertArgArray`: split on `=` with no validation — `splitData[0]` is
the flag, `splitData[1]` (possibly `undefined`) the value. -/
def convertArgArray (data : String) : TfArg :=
  let splitData := jsSplit '=' data
  { arg := splitData.headD "", value := splitData.get? 1 }

/-- Mapping of `convertTfVarArray` over the configured var strings
(`cmdlinevars.map(convertTfVarArray)`): the first throw propagates. -/
def convertTfVarList : List String → Except String (List TfVar)
  | [] => Except.ok []
  | a :: rest =>
    match convertTfVarArray a with
    | Except.error e => Except.error e
    | Except.ok v =>
      match convertTfVarList rest with
      | Except.error e => Except.error e
      | Except.ok vs => Except.ok (v :: vs)

/-- Models `setParams(ctx, params)`: populate the registration from the
configuration parameters and inject the resolved cloud credential (`secret`)
as `envVars.GOOGLE_CREDENTIALS`.  Faults raised by the converters
propagate. -/
def setParams (p : SkillParameters) (secret : String)
    (params : TerraformRegistration) : Except String TerraformRegistration :=
  let args := match p.cmdlineargs with
    | some l => l.map convertArgArray
    | none => []
  match (match p.cmdlinevars with
         | some l => convertTfVarList l
         | none => Except.ok []) with
  | Except.error e => Except.error e
  | Except.ok vars =>
    let varsFiles := if p.varFiles.isSome then p.varsFiles else some []
    match (match p.envvars with
           | some l => convertEnvArray l
           | none => Except.ok []) with
    | Except.error e => Except.error e
    | Except.ok envv =>
      Except.ok { params with
        workspace := p.workspace
        args := some args
        baseLocation := p.base
        init := p.init
        vars := some vars
        varsFiles := varsFiles
        envVars := some (insertAssoc envv "GOOGLE_CREDENTIALS" secret)
        autoApprove := some (jsTruthyBool p.autoApprove)
        version := if jsTruthyStr p.version then p.version else none }

/-- Whether an `Except` computation succeeded. -/
def exceptOk {α : Type} : Except String α → Bool
  | Except.ok _ => true
  | Except.error _ => false

/-! ## updateRepo (src/lib/events/onPush.ts) -/

/-- The repository identity the entry handler passes to the slack listener. -/
structure RepoInfo where
  owner : String
  name : String
  branch : Option String := none
  sha : String
  commitUrl : String
deriving DecidableEq, Repr

/-- Models `updateRepo(repo, params)`: the listener refresh of the repository
identity fields.  The guard `_.isEmpty(params) ||
!Object.keys(params).includes("project")` — no project loaded yet — is
modelled as `params.project = none`, in which case nothing is written. -/
def updateRepo (repo : RepoInfo) (params : TerraformRegistration) : TerraformRegistration :=
  match params.project with
  | none => params
  | some p =>
    { params with
      project := some { p with id := { p.id with
        repo := repo.name
        owner := repo.owner
        sha := repo.sha
        branch := repo.branch } }
      commitUrl := some repo.commitUrl }

/-! ## Concrete fixtures used by witnesses and counterexamples -/

/-- A loaded project, mirroring the test fixture of the repository. -/
def proj0 : Project :=
  { id := { owner := "dummyOwner", repo := "dummyRepo",
            sha := "9e48f944bf1aaf41feeea003aa1c96a92cec0c4f",
            branch := some "master", credential := some "fake" },
    dir := "/fake/project/path" }

/-- A populated registration: one CLI arg `no-color`, one var `foo=bar`,
auto-approve off. -/
def reg0 : TerraformRegistration :=
  { project := some proj0, baseLocation := some "tf",
    envVars := some [("foo", "bar")],
    args := some [{ arg := "no-color" }],
    vars := some [{ tfVar := "foo", value := some "bar" }],
    varsFiles := some [], init := some false,
    autoApprove := some false }

/-- Models `reg0` with auto-approve enabled. -/
def regAuto : TerraformRegistration := { reg0 with autoApprove := some true }

/-- A plan context fixture. -/
def ctx0 : PlanCtx :=
  { correlationId := "corr1", workspaceId := "ws1",
    pushAfterSha := "9e48f944bf1aaf41feeea003aa1c96a92cec0c4f",
    pushAfterUrl := "https://github.example/commit/9e48f944",
    channels := ["dev"], committerScreenName := "alice" }

/-- A spawn oracle whose every invocation exits with status `n` and writes a
fixed transcript. -/
def spawnConst (n : Int) : Invocation → SpawnResult :=
  fun _ => { status := n, stdout := "out", stderr := "err", log := "plan transcript" }

/-- A spawn oracle for the version-manager scenario: `use` fails, `install`
succeeds. -/
def spawnUseFails : Invocation → SpawnResult :=
  fun inv =>
    if inv.args.take 1 = ["use"] then
      { status := 1, stdout := "", stderr := "use failed", log := "" }
    else
      { status := 0, stdout := "installed", stderr := "", log := "" }

/-- A spawn oracle for the version-manager scenario: both `use` and
`install` fail. -/
def spawnBothFail : Invocation → SpawnResult :=
  fun inv =>
    if inv.args.take 1 = ["use"] then
      { status := 1, stdout := "", stderr := "use failed", log := "" }
    else
      { status := 1, stdout := "", stderr := "install failed", log := "" }

/-! ## Helper lemmas -/

/-- The inline rendering of one CLI argument in `buildTfArgs` equals the
spec-side `renderTfArg`. -/
theorem renderTfArg_eq (a : TfArg) :
    "-" ++ a.arg ++ (if jsTruthyStr a.value then "=" ++ jsStr a.value else "") = renderTfArg a := by
  unfold renderTfArg
  by_cases h : jsTruthyStr a.value = true
  · simp [h, String.append_assoc]
  · simp [h]

/-- Closed form of `buildTfArgs` for a registration whose args are set. -/
theorem buildTfArgs_eq (action : TfAction) (r : TerraformRegistration)
    (as : List TfArg) (h : r.args = some as) :
    buildTfArgs action r = tfActionPrefix action ++ "-input=false" :: as.map renderTfArg := by
  cases action <;> simp [buildTfArgs, tfActionPrefix, h, renderTfArg_eq]

/-- Closed form of `buildTfVars` for a registration whose vars and var-file
lists are set. -/
theorem buildTfVars_eq (r : TerraformRegistration) (vs : List TfVar)
    (fs : List String) (h1 : r.vars = some vs) (h2 : r.varsFiles = some fs) :
    buildTfVars r = (vs.map (fun a => ["-var", a.tfVar ++ "=" ++ jsStr a.value])).flatten
      ++ fs.map (fun f => "-var-file=" ++ f) := by
  simp [buildTfVars, h1, h2]

/-- Flattening the two-entry blocks of the var pairs yields twice as many
entries. -/
theorem length_flatten_var_pairs (vs : List TfVar) :
    ((vs.map (fun a => ["-var", a.tfVar ++ "=" ++ jsStr a.value])).flatten).length
      = 2 * vs.length := by
  induction vs with
  | nil => simp
  | cons a t ih => simp [ih]; ring

/-! ## Claim C7 — buildTfArgs shape (corrected) -/

/-- C7 counterexample: an argument whose value is present but empty
(`value = some ""`, as produced by the configuration string "foo=") is
rendered `-foo`, not `-foo=` as the claim ("-<flag>=<value> otherwise")
predicts, because the source tests JS truthiness of the value. -/
theorem c7_empty_value_counterexample :
    buildTfArgs TfAction.plan { args := some [{ arg := "foo", value := some "" }] }
      = ["-input=false", "-foo"] ∧
    (["-input=false", "-foo"] : List String) ≠ ["-input=false", "-foo="] := by
  constructor
  · rfl
  · decide

/-- C7 (amended): for every registration with args set, `buildTfArgs`
returns the action prefix (`-auto-approve` for apply, `-force` for destroy,
nothing for plan), then `-input=false`, then every user CLI argument in
input order, rendered `-<flag>` when its value is absent or empty (JS-falsy)
and `-<flag>=<value>` when the value is nonempty; as a pure function it
never mutates the registration. -/
theorem c7_buildTfArgs_order (r : TerraformRegistration) (as : List TfArg)
    (h : r.args = some as) :
    buildTfArgs TfAction.apply r = "-auto-approve" :: "-input=false" :: as.map renderTfArg ∧
    buildTfArgs TfAction.destroy r = "-force" :: "-input=false" :: as.map renderTfArg ∧
    buildTfArgs TfAction.plan r = "-input=false" :: as.map renderTfArg ∧
    (∀ a : TfArg, jsTruthyStr a.value = false → renderTfArg a = "-" ++ a.arg) ∧
    (∀ (a : TfArg) (s : String), a.value = some s → s ≠ "" →
      renderTfArg a = "-" ++ a.arg ++ "=" ++ s) := by
  refine ⟨buildTfArgs_eq _ _ _ h, buildTfArgs_eq _ _ _ h, buildTfArgs_eq _ _ _ h, ?_, ?_⟩
  · intro a ha
    simp [renderTfArg, ha]
  · intro a s ha hs
    simp [renderTfArg, jsTruthyStr, ha, hs, jsStr, String.append_assoc]

/-- Registration fixture for the C7 witness. -/
def regC7 : TerraformRegistration :=
  { args := some [{ arg := "no-color" }, { arg := "lock", value := some "false" }] }

/-- C7 witness: the amended theorem applied at a concrete registration. -/
theorem c7_buildTfArgs_order_witness :
    buildTfArgs TfAction.apply regC7
      = "-auto-approve" :: "-input=false"
        :: [TfArg.mk "no-color" none, TfArg.mk "lock" (some "false")].map renderTfArg :=
  (c7_buildTfArgs_order regC7 [TfArg.mk "no-color" none, TfArg.mk "lock" (some "false")] rfl).1

/-! ## Claim C8 — buildTfVars shape (confirmed) -/

/-- C8: for every registration with n var pairs and m var-file paths,
`buildTfVars` returns exactly 2n+m entries — for each var pair in input
order the two entries `-var` and `name=value`, then for each var-file path
one entry `-var-file=<path>`. -/
theorem c8_buildTfVars_shape (r : TerraformRegistration) (vs : List TfVar)
    (fs : List String) (h1 : r.vars = some vs) (h2 : r.varsFiles = some fs) :
    buildTfVars r = (vs.map (fun a => ["-var", a.tfVar ++ "=" ++ jsStr a.value])).flatten
      ++ fs.map (fun f => "-var-file=" ++ f) ∧
    (buildTfVars r).length = 2 * vs.length + fs.length := by
  have he := buildTfVars_eq r vs fs h1 h2
  refine ⟨he, ?_⟩
  rw [he, List.length_append, length_flatten_var_pairs, List.length_map]

/-- C8 witness: the theorem applied at a concrete registration with one var
pair and two var files. -/
theorem c8_buildTfVars_shape_witness :
    buildTfVars { vars := some [{ tfVar := "foo", value := some "bar" }],
                  varsFiles := some ["a.tfvars", "b.tfvars"] }
      = ["-var", "foo=bar", "-var-file=a.tfvars", "-var-file=b.tfvars"] := by
  have h := (c8_buildTfVars_shape
    { vars := some [{ tfVar := "foo", value := some "bar" }],
      varsFiles := some ["a.tfvars", "b.tfvars"] }
    [{ tfVar := "foo", value := some "bar" }] ["a.tfvars", "b.tfvars"] rfl rfl).1
  rw [h]
  rfl

/-! ## Claim C5 — malformed configuration strings (corrected) -/

/-- Whether a configuration string splits into exactly two parts on `=`
(the well-formedness the converters enforce). -/
def wellFormedKV (e : String) : Bool := (jsSplit '=' e).length == 2

/-- The env-var loop succeeds exactly when every entry is well formed,
independently of the accumulated object. -/
theorem convertEnvArrayAux_ok (l : List String) :
    ∀ acc, exceptOk (convertEnvArrayAux acc l) = l.all wellFormedKV := by
  induction l with
  | nil => intro acc; rfl
  | cons a t ih =>
    intro acc
    match hs : jsSplit '=' a with
    | [] => simp [convertEnvArrayAux, hs, exceptOk, wellFormedKV]
    | [k] => simp [convertEnvArrayAux, hs, exceptOk, wellFormedKV]
    | [k, v] => simp [convertEnvArrayAux, hs, ih, wellFormedKV]
    | k :: v :: w :: rest => simp [convertEnvArrayAux, hs, exceptOk, wellFormedKV]

/-- The CLI-var mapping succeeds exactly when every entry is well formed. -/
theorem convertTfVarList_ok (l : List String) :
    exceptOk (convertTfVarList l) = l.all wellFormedKV := by
  induction l with
  | nil => rfl
  | cons a t ih =>
    match hs : jsSplit '=' a with
    | [] =>
      simp only [convertTfVarList, convertTfVarArray, hs, List.all_cons, wellFormedKV,
        List.length_nil, exceptOk]
      rfl
    | [k] =>
      simp only [convertTfVarList, convertTfVarArray, hs, List.all_cons, wellFormedKV,
        List.length_cons, List.length_nil, exceptOk]
      rfl
    | [k, v] =>
      have hwa : wellFormedKV a = true := by
        simp [wellFormedKV, hs]
      simp only [convertTfVarList, convertTfVarArray, hs, List.all_cons, hwa, Bool.true_and]
      rw [← ih]
      cases ht : convertTfVarList t <;> simp [ht, exceptOk]
    | k :: v :: w :: rest =>
      have hwa : wellFormedKV a = false := by
        simp [wellFormedKV, hs]
      simp only [convertTfVarList, convertTfVarArray, hs, List.all_cons, hwa,
        Bool.false_and, exceptOk]

/-- C5 counterexample: the CLI-arg string "foo=bar=baz" does not contain
exactly one `=`, yet `setParams` succeeds and produces a registration from
it (`convertArgArray` performs no validation), contradicting the claim that
every malformed entry of the three arrays faults parameter-setting. -/
theorem c5_args_not_validated_counterexample :
    (jsSplit '=' "foo=bar=baz").length ≠ 2 ∧
    setParams { cmdlineargs := some ["foo=bar=baz"] } "secret" {}
      = Except.ok { args := some [{ arg := "foo", value := some "bar" }],
                    vars := some [], varsFiles := some [],
                    envVars := some [("GOOGLE_CREDENTIALS", "secret")],
                    autoApprove := some false } := by
  constructor
  · decide
  · rfl

/-- C5 (amended): parameter-setting faults exactly when some
environment-variable or CLI-var entry lacks exactly one `=`; CLI-arg
entries are never validated (they are split on `=` without any fault), so a
malformed CLI-arg entry does not abort parameter-setting. -/
theorem c5_setParams_fault_conditions (p : SkillParameters) (secret : String)
    (reg : TerraformRegistration) :
    exceptOk (setParams p secret reg)
      = ((p.cmdlinevars.getD []).all wellFormedKV
         && (p.envvars.getD []).all wellFormedKV) := by
  unfold setParams
  cases hcv : p.cmdlinevars with
  | none =>
    cases hev : p.envvars with
    | none => simp only [hcv, hev]; rfl
    | some le =>
      simp only [hcv, hev, convertEnvArray, Option.getD_some, Option.getD_none,
        List.all_nil, Bool.true_and]
      rw [← convertEnvArrayAux_ok le []]
      cases hus : convertEnvArrayAux [] le <;> simp [hus, exceptOk]
  | some lv =>
    simp only [hcv, Option.getD_some]
    rw [← convertTfVarList_ok lv]
    cases hvs : convertTfVarList lv with
    | error e => simp [hvs, exceptOk]
    | ok vars =>
      simp only [hvs, exceptOk, Bool.true_and]
      cases hev : p.envvars with
      | none => simp [hev, exceptOk]
      | some le =>
        simp only [hev, convertEnvArray, Option.getD_some, Bool.true_and]
        rw [← convertEnvArrayAux_ok le []]
        cases hus : convertEnvArrayAux [] le <;> simp [hus, exceptOk]

/-! ## Claim C10 — varsFiles key mismatch in setParams (confirmed) -/

/-- C10: in `setParams` the var-file list is guarded by `parameters.varFiles`
but read from `parameters.varsFiles`: whenever the guard key is present
(JS-truthy — any array), the registration receives `parameters.varsFiles`
(which is `undefined` when that key is absent) rather than the supplied
`varFiles` list; only when the guard key is absent does the registration
default to the empty list. -/
theorem c10_varsFiles_key_mismatch (p : SkillParameters) (secret : String)
    (reg out : TerraformRegistration) (h : setParams p secret reg = Except.ok out) :
    (p.varFiles.isSome = true → out.varsFiles = p.varsFiles) ∧
    (p.varFiles.isSome = false → out.varsFiles = some []) := by
  unfold setParams at h
  repeat' split at h
  all_goals
    first
      | exact Except.noConfusion h
      | (rw [Except.ok.injEq] at h
         subst h
         constructor <;> intro hvf <;> simp_all)

/-- Parameter fixture for the C10 witness: the guard key `varFiles` is
supplied but the value key `varsFiles` is absent. -/
def paramsC10 : SkillParameters := { varFiles := some ["prod.tfvars"] }

/-- Registration produced by `setParams` on `paramsC10`. -/
def regC10 : TerraformRegistration :=
  { args := some [], vars := some [], varsFiles := none,
    envVars := some [("GOOGLE_CREDENTIALS", "sec")], autoApprove := some false }

/-- C10 witness: with `varFiles = some ["prod.tfvars"]` and `varsFiles`
absent, the produced registration carries `varsFiles = none` — the supplied
list is dropped. -/
theorem c10_varsFiles_key_mismatch_witness :
    paramsC10.varFiles.isSome = true ∧ regC10.varsFiles = paramsC10.varsFiles :=
  ⟨rfl, (c10_varsFiles_key_mismatch paramsC10 "sec" {} regC10 rfl).1 rfl⟩

/-! ## Claim C6 — ValidateTerraform result codes (confirmed) -/

/-- C6: the ValidateTerraform step returns code 0 exactly when
`terraform validate` succeeds and some `*.tf` file of the base path matches
the backend-block grammar; it returns code 2 when validate fails — and is
then independent of the backend scan — and code 3 when validate passes but
no backend block is found. -/
theorem c6_validate_codes (spawn : Invocation → SpawnResult)
    (files : List (String × String)) (r : TerraformRegistration) (p : Project)
    (hp : r.project = some p) :
    ∃ st, validateTerraformStep spawn files r = Except.ok (st, [validateInvocation]) ∧
      (st.code = 0 ↔ ((spawn validateInvocation).status = 0 ∧ backendFound files = true)) ∧
      ((spawn validateInvocation).status ≠ 0 → st.code = 2 ∧
        ∀ files2, validateTerraformStep spawn files2 r = validateTerraformStep spawn files r) ∧
      ((spawn validateInvocation).status = 0 → backendFound files = false → st.code = 3) := by
  by_cases hs : (spawn validateInvocation).status = 0
  · by_cases hb : backendFound files = true
    · refine ⟨{ code := 0 }, ?_, ?_, ?_, ?_⟩
      · simp [validateTerraformStep, runTfValidate, hp, hs, hb]
      · simp [hs, hb]
      · intro hns; exact absurd hs hns
      · intro _ hbf; rw [hb] at hbf; exact absurd hbf (by simp)
    · refine ⟨{ code := 3, reason := some noBackendReason }, ?_, ?_, ?_, ?_⟩
      · simp [validateTerraformStep, runTfValidate, hp, hs, hb]
      · simp [hb]
      · intro hns; exact absurd hs hns
      · intro _ _; rfl
  · refine ⟨{ code := 2, reason := some "Failed to run terraform validate!" }, ?_, ?_, ?_, ?_⟩
    · simp [validateTerraformStep, runTfValidate, hp, hs]
    · simp [hs]
    · intro _
      refine ⟨rfl, ?_⟩
      intro files2
      simp [validateTerraformStep, runTfValidate, hp, hs]
    · intro h0; exact absurd h0 hs

/-- File fixture for the C6 witness: one `*.tf` file with a backend block. -/
def filesC6 : List (String × String) :=
  [("main.tf", "terraform \x7b\n  backend \"gcs\" \x7b\x7d\n\x7d\n")]

/-- C6 witness: the theorem applied at a validate-success spawn oracle and a
file set containing a backend block. -/
theorem c6_validate_codes_witness :
    ∃ st, validateTerraformStep (spawnConst 0) filesC6 reg0
        = Except.ok (st, [validateInvocation]) ∧
      (st.code = 0 ↔ ((spawnConst 0 validateInvocation).status = 0 ∧ backendFound filesC6 = true)) ∧
      ((spawnConst 0 validateInvocation).status ≠ 0 → st.code = 2 ∧
        ∀ files2, validateTerraformStep (spawnConst 0) files2 reg0
          = validateTerraformStep (spawnConst 0) filesC6 reg0) ∧
      ((spawnConst 0 validateInvocation).status = 0 → backendFound filesC6 = false → st.code = 3) :=
  c6_validate_codes (spawnConst 0) filesC6 reg0 proj0 rfl

/-! ## Claim C3 — SetTerraformVersion (code_bug) -/

/-- Registration fixture with a version set, for the version-manager
scenarios. -/
def regVersion : TerraformRegistration := { reg0 with version := some "12.1.1" }

/-- C3 evaluation at the failing input: with version "12.1.1" set and
`tfenv use` exiting 0, the step produces no status object at all (the local
`response` is never assigned on the use-success path, so the TypeScript
function returns `undefined` where its signature promises a
`HandlerStatus`), instead of the code-0 result the claim and the spec table
state.  The use-failure paths behave as claimed: `install` runs as the
second invocation and its outcome is classified 0/1. -/
theorem c3_version_use_success_returns_undefined :
    setTfVersion (spawnConst 0) regVersion
      = Except.ok (none, [{ cmd := "tfenv", args := ["use", "12.1.1"] }]) ∧
    setTfVersion spawnUseFails regVersion
      = Except.ok (some { code := 0, reason := some "installed" },
          [{ cmd := "tfenv", args := ["use", "12.1.1"] },
           { cmd := "tfenv", args := ["install", "12.1.1"] }]) ∧
    setTfVersion spawnBothFail regVersion
      = Except.ok (some { code := 1, reason := some "install failed" },
          [{ cmd := "tfenv", args := ["use", "12.1.1"] },
           { cmd := "tfenv", args := ["install", "12.1.1"] }]) := by
  refine ⟨rfl, rfl, rfl⟩

/-! ## Claim C2 — RunTerraformApply gating and invocation (confirmed) -/

/-- C2: the apply step runs exactly when auto-approve is enabled or an apply
was explicitly triggered (`context.tfApply`); when it runs, the single
subprocess invocation is `terraform apply` with `-auto-approve` then
`-input=false` first, followed by the user CLI args in order and then the
`-var`/`-var-file` entries; when auto-approve is falsy and there is no
explicit trigger, no subprocess is invoked. -/
theorem c2_apply_gating (spawn : Invocation → SpawnResult) (sctx : StepContext)
    (r : TerraformRegistration) (p : Project) (as : List TfArg)
    (hp : r.project = some p) (ha : r.args = some as) :
    (shouldRunTerraformApply sctx r = (jsTruthyBool r.autoApprove || sctx.tfApply)) ∧
    (jsTruthyBool r.autoApprove = false → sctx.tfApply = false →
      runApplyStepGated spawn sctx r = Except.ok (none, [])) ∧
    (shouldRunTerraformApply sctx r = true →
      ∃ st, runApplyStepGated spawn sctx r = Except.ok (some st,
        [{ cmd := "terraform",
           args := "apply" :: "-auto-approve" :: "-input=false"
             :: (as.map renderTfArg ++ buildTfVars r) }])) := by
  refine ⟨rfl, ?_, ?_⟩
  · intro h1 h2
    simp [runApplyStepGated, shouldRunTerraformApply, h1, h2]
  · intro hrun
    have hinv : tfInvocation TfAction.apply r
        = { cmd := "terraform",
            args := "apply" :: "-auto-approve" :: "-input=false"
              :: (as.map renderTfArg ++ buildTfVars r) } := by
      simp [tfInvocation, actionStr, buildTfArgs_eq TfAction.apply r as ha, tfActionPrefix]
    refine ⟨{ code := (spawn (tfInvocation TfAction.apply r)).status,
              reason := some ("*Apply Output:*\n\n"
                ++ codeBlock (spawn (tfInvocation TfAction.apply r)).log) }, ?_⟩
    rw [← hinv]
    simp [runApplyStepGated, hrun, runTerraformApplyStep, executeTfAction, hp]

/-- C2 witness: gated on a context with no trigger and auto-approve off, the
apply step performs no invocation. -/
theorem c2_apply_gating_witness :
    runApplyStepGated (spawnConst 0) {} reg0 = Except.ok (none, []) :=
  (c2_apply_gating (spawnConst 0) {} reg0 proj0 [{ arg := "no-color" }] rfl rfl).2.1 rfl rfl

/-! ## Plan step unfolding -/

/-- Closed form of one run of the plan step for a registration with a loaded
project and args set.  Proved once and shared by the plan-step claims. -/
theorem runPlanStep_eq (spawn : Invocation → SpawnResult) (ctx : PlanCtx)
    (params : TerraformRegistration) (p : Project) (as : List TfArg)
    (hp : params.project = some p) (ha : params.args = some as) :
    runTerraformPlanStep spawn ctx params =
      (if (spawn (planInvocation params as)).status = 1 then
         Except.ok { status := { code := (spawn (planInvocation params as)).status,
                                 reason := some ("Error while running Terraform!  Exit code: "
                                   ++ toString (spawn (planInvocation params as)).status) },
                     invocations := [planInvocation params as], sent := [], regAfter := params }
       else
         Except.ok { status := { code := 0,
                                 reason := some (planMsgText (spawn (planInvocation params as)).log) },
                     invocations := [planInvocation params as],
                     sent :=
                       (if jsTruthyBool params.autoApprove then []
                        else [mkSentMessage
                          { attachments :=
                              (if (spawn (planInvocation params as)).status = 2 then
                                 [planHeadAttachment p ctx
                                   (planMsgText (spawn (planInvocation params as)).log)
                                   [runApplyButton p ("apply-" ++ ctx.correlationId) ctx.pushAfterUrl]]
                               else
                                 [planHeadAttachment p ctx
                                   (planMsgText (spawn (planInvocation params as)).log) [],
                                  noChangesAttachment]) }
                          ctx ("apply-" ++ ctx.correlationId)]),
                     regAfter := params }) := by
  obtain ⟨proj, base, env, argsF, varsF, vfs, initF, ws, aa, ver, cu⟩ := params
  dsimp only at hp ha
  subst hp
  subst ha
  simp only [runTerraformPlanStep, executeTfAction, planInvocation]
  split_ifs <;> rfl

/-! ## Claim C1 — plan detailed exit code mapping (confirmed) -/

/-- C1: when the `terraform plan` subprocess exits with detailed exit code 1
the plan step returns a nonzero (hard-failure) result; for the other
detailed exit codes (0 = no changes, 2 = changes present) the step returns
code 0 to the engine. -/
theorem c1_plan_exit_code (spawn : Invocation → SpawnResult) (ctx : PlanCtx)
    (r : TerraformRegistration) (p : Project) (as : List TfArg) (out : PlanOutcome)
    (hp : r.project = some p) (ha : r.args = some as)
    (hrun : runTerraformPlanStep spawn ctx r = Except.ok out) :
    ((spawn (planInvocation r as)).status = 1 →
      out.status.code = 1 ∧ out.status.code ≠ 0) ∧
    (¬((spawn (planInvocation r as)).status = 1) →
      out.status.code = 0) := by
  rw [runPlanStep_eq spawn ctx r p as hp ha] at hrun
  constructor
  · intro h1
    rw [h1] at hrun
    rw [if_pos (rfl : (1 : Int) = 1)] at hrun
    rw [Except.ok.injEq] at hrun
    rw [← hrun]
    exact ⟨rfl, by dsimp only; decide⟩
  · intro hs1
    rw [if_neg hs1, Except.ok.injEq] at hrun
    rw [← hrun]

/-- The outcome of the plan step on `reg0` when terraform reports changes
(detailed exit code 2). -/
def planOutChanges : PlanOutcome :=
  { status := { code := 0, reason := some (planMsgText "plan transcript") },
    invocations := [planInvocation reg0 [{ arg := "no-color" }]],
    sent := [mkSentMessage
      { attachments := [planHeadAttachment proj0 ctx0 (planMsgText "plan transcript")
          [runApplyButton proj0 "apply-corr1" ctx0.pushAfterUrl]] }
      ctx0 "apply-corr1"],
    regAfter := reg0 }

/-- Evaluation fact shared by the plan-step witnesses: on `reg0` with every
subprocess exiting 2, the plan step produces `planOutChanges`. -/
theorem runPlan_changes_eval :
    runTerraformPlanStep (spawnConst 2) ctx0 reg0 = Except.ok planOutChanges := by
  rfl

/-- C1 witness: the theorem applied at the changes-present oracle; the
detailed exit code 2 yields step code 0. -/
theorem c1_plan_exit_code_witness : planOutChanges.status.code = 0 :=
  (c1_plan_exit_code (spawnConst 2) ctx0 reg0 proj0 [{ arg := "no-color" }]
    planOutChanges rfl rfl runPlan_changes_eval).2 (by decide)

/-! ## Claim C4 — plan chat message (corrected) -/

/-- The message of a sent-message record is the message passed in, whichever
destination was chosen. -/
theorem mkSentMessage_msg (m : SlackMessage) (ctx : PlanCtx) (msgId : String) :
    (mkSentMessage m ctx msgId).msg = m := by
  unfold mkSentMessage
  split_ifs <;> rfl

/-- The upsert id of a sent-message record is the id passed in, whichever
destination was chosen. -/
theorem mkSentMessage_msgId (m : SlackMessage) (ctx : PlanCtx) (msgId : String) :
    (mkSentMessage m ctx msgId).msgId = msgId := by
  unfold mkSentMessage
  split_ifs <;> rfl

/-- Projection of a plan-step run onto the messages it sent. -/
def planSentOf (e : Except String PlanOutcome) : Option (List SentMessage) :=
  match e with
  | Except.ok o => some o.sent
  | Except.error _ => none

/-- C4 counterexample: with auto-approve enabled and a plan exit code of 0,
the step sends no chat message at all — the send is guarded by
`if (!params.autoApprove)` — contradicting the claim that a message is
emitted after every plan whose exit code is 0 or 2. -/
theorem c4_autoapprove_no_message_counterexample :
    jsTruthyBool regAuto.autoApprove = true ∧
    (spawnConst 0 (planInvocation regAuto [{ arg := "no-color" }])).status = 0 ∧
    planSentOf (runTerraformPlanStep (spawnConst 0) ctx0 regAuto) = some [] := by
  exact ⟨rfl, rfl, rfl⟩

/-- C4 (amended): after a plan whose detailed exit code is 0 or 2, the step
emits the chat message — upserted under the stable id
`apply-<correlationId>` and containing the plan transcript — only when
auto-approve is off; with auto-approve on, no message is sent.  When the
exit code is 2 the message carries the "Run Apply" action whose payload is
the serialized pipeline state (the project minus its live handles, the
message id, the commit url); when the exit code is 0 it carries no action. -/
theorem c4_plan_message (spawn : Invocation → SpawnResult) (ctx : PlanCtx)
    (r : TerraformRegistration) (p : Project) (as : List TfArg) (out : PlanOutcome)
    (hp : r.project = some p) (ha : r.args = some as)
    (hrun : runTerraformPlanStep spawn ctx r = Except.ok out)
    (h02 : (spawn (planInvocation r as)).status = 0 ∨ (spawn (planInvocation r as)).status = 2) :
    (jsTruthyBool r.autoApprove = true → out.sent = []) ∧
    (jsTruthyBool r.autoApprove = false →
      ∃ sm, out.sent = [sm] ∧
        sm.msgId = "apply-" ++ ctx.correlationId ∧
        (∃ a rest, sm.msg.attachments = a :: rest ∧
          (∃ pre post, a.text = pre ++ (spawn (planInvocation r as)).log ++ post) ∧
          a.actions = (if (spawn (planInvocation r as)).status = 2 then
            [runApplyButton p ("apply-" ++ ctx.correlationId) ctx.pushAfterUrl] else []))) := by
  have hs1 : ¬((spawn (planInvocation r as)).status = 1) := by
    rcases h02 with h | h <;> rw [h] <;> decide
  rw [runPlanStep_eq spawn ctx r p as hp ha, if_neg hs1, Except.ok.injEq] at hrun
  constructor
  · intro haa
    rw [← hrun]
    simp [haa]
  · intro haa
    rcases h02 with h | h
    -- exit code 0: the head attachment carries the transcript and no action
    · rw [h, haa] at hrun
      rw [if_neg (show ¬(false = true) by decide)] at hrun
      rw [if_neg (show ¬((0 : Int) = 2) by decide)] at hrun
      rw [← hrun]
      dsimp only
      rw [h, if_neg (show ¬((0 : Int) = 2) by decide)]
      refine ⟨_, rfl, ?_, ?_⟩
      · rw [mkSentMessage_msgId]
      · rw [mkSentMessage_msg]
        dsimp only
        refine ⟨_, _, rfl, ?_, rfl⟩
        exact ⟨"*" ++ p.id.owner ++ "/" ++ p.id.repo ++ "* at "
            ++ slackUrl ctx.pushAfterUrl ("`" ++ p.id.sha.take 7 ++ "`") ++ "\n\n"
            ++ "*Plan Output* " ++ "```", "```",
          by simp only [planHeadAttachment, planMsgText, codeBlock, String.append_assoc]⟩
    -- exit code 2: the head attachment carries the transcript and the button
    · rw [h, haa] at hrun
      rw [if_neg (show ¬(false = true) by decide)] at hrun
      rw [if_pos (rfl : (2 : Int) = 2)] at hrun
      rw [← hrun]
      dsimp only
      rw [h, if_pos (rfl : (2 : Int) = 2)]
      refine ⟨_, rfl, ?_, ?_⟩
      · rw [mkSentMessage_msgId]
      · rw [mkSentMessage_msg]
        dsimp only
        refine ⟨_, _, rfl, ?_, rfl⟩
        exact ⟨"*" ++ p.id.owner ++ "/" ++ p.id.repo ++ "* at "
            ++ slackUrl ctx.pushAfterUrl ("`" ++ p.id.sha.take 7 ++ "`") ++ "\n\n"
            ++ "*Plan Output* " ++ "```", "```",
          by simp only [planHeadAttachment, planMsgText, codeBlock, String.append_assoc]⟩

/-- C4 witness: the amended theorem applied at the changes-present oracle
with auto-approve off. -/
theorem c4_plan_message_witness :
    ∃ sm, planOutChanges.sent = [sm] ∧
      sm.msgId = "apply-" ++ ctx0.correlationId ∧
      (∃ a rest, sm.msg.attachments = a :: rest ∧
        (∃ pre post, a.text = pre
          ++ (spawnConst 2 (planInvocation reg0 [{ arg := "no-color" }])).log ++ post) ∧
        a.actions = (if (spawnConst 2 (planInvocation reg0 [{ arg := "no-color" }])).status = 2 then
          [runApplyButton proj0 ("apply-" ++ ctx0.correlationId) ctx0.pushAfterUrl] else [])) :=
  (c4_plan_message (spawnConst 2) ctx0 reg0 proj0 [{ arg := "no-color" }]
    planOutChanges rfl rfl runPlan_changes_eval (Or.inr rfl)).2 rfl

/-! ## Claim C9 — registration mutation discipline (corrected) -/

/-- Projection of a plan-step run onto the registration it leaves behind. -/
def planRegAfterOf (e : Except String PlanOutcome) : Option TerraformRegistration :=
  match e with
  | Except.ok o => some o.regAfter
  | Except.error _ => none

/-- C9 counterexample: the plan step pushes the extra CLI arg onto a
`_.cloneDeep` copy of the registration, so after the step the shared
registration still carries its original args — it was not appended to, as
the claim states. -/
theorem c9_plan_copies_counterexample :
    planRegAfterOf (runTerraformPlanStep (spawnConst 2) ctx0 reg0) = some reg0 ∧
    reg0.args = some [{ arg := "no-color" }] ∧
    reg0.args ≠ some ([{ arg := "no-color" }] ++ [detailedExitArg]) := by
  refine ⟨?_, rfl, by decide⟩
  rw [runPlan_changes_eval]
  rfl

/-- C9 (amended): after the parameter-initialization step no later step
overwrites a registration field; the plan step in fact leaves the shared
registration entirely unchanged — it appends `detailed-exitcode` only to
the deep copy used for its invocation — and the only writes performed later
are the repository identity fields (owner, repo, sha, branch, commit url)
refreshed by the listener function `updateRepo`, which preserves every
other field. -/
theorem c9_registration_discipline (spawn : Invocation → SpawnResult) (ctx : PlanCtx)
    (r : TerraformRegistration) (out : PlanOutcome)
    (hrun : runTerraformPlanStep spawn ctx r = Except.ok out) :
    (out.regAfter = r ∧
      (∀ as, r.args = some as → out.invocations = [planInvocation r as])) ∧
    (∀ (info : RepoInfo) (r2 : TerraformRegistration),
      (updateRepo info r2).baseLocation = r2.baseLocation ∧
      (updateRepo info r2).envVars = r2.envVars ∧
      (updateRepo info r2).args = r2.args ∧
      (updateRepo info r2).vars = r2.vars ∧
      (updateRepo info r2).varsFiles = r2.varsFiles ∧
      (updateRepo info r2).init = r2.init ∧
      (updateRepo info r2).workspace = r2.workspace ∧
      (updateRepo info r2).autoApprove = r2.autoApprove ∧
      (updateRepo info r2).version = r2.version ∧
      (updateRepo info r2).project.map Project.dir = r2.project.map Project.dir) := by
  constructor
  · constructor
    · unfold runTerraformPlanStep at hrun
      dsimp only at hrun
      repeat' split at hrun
      all_goals
        first
          | exact Except.noConfusion hrun
          | (rw [Except.ok.injEq] at hrun; rw [← hrun])
    · intro as ha
      cases hpj : r.project with
      | none =>
        simp [runTerraformPlanStep, executeTfAction, ha, hpj] at hrun
      | some p =>
        rw [runPlanStep_eq spawn ctx r p as hpj ha] at hrun
        split at hrun <;> (rw [Except.ok.injEq] at hrun; rw [← hrun])
  · intro info r2
    cases hpj : r2.project <;> simp [updateRepo, hpj]

/-- C9 witness: the amended theorem applied at the changes-present plan run;
the registration after the plan step equals the registration before it. -/
theorem c9_registration_discipline_witness : planOutChanges.regAfter = reg0 :=
  ((c9_registration_discipline (spawnConst 2) ctx0 reg0 planOutChanges
    runPlan_changes_eval).1).1

end TerraformSkill
